import Mathlib

/-!
Shallow embedding of the protocol codec of `mitsu-ac.rs`
(`src/protocol/frame.rs`, `src/protocol/frame_data.rs`,
`src/protocol/types.rs`, `src/protocol/encoding.rs`).

Bytes are modelled as `Nat`; machine-integer wraparound is made explicit with
`% 256` (u8) and `% 4294967296` (u32) at exactly the places the Rust code
performs fixed-width arithmetic or `as` casts.  Fallible parsing is modelled
on the nom 5 streaming combinators the source uses: a parser takes the input
byte list and returns either `Except.error` (an `NomErr`, which is either
`incomplete` or a positioned `error`, mirroring `nom::Err::Incomplete` and
`nom::Err::Error`) or `Except.ok (remaining, value)`.
-/

/-- Needed-bytes hint of `nom::Needed`. -/
inductive Needed
  | unknown
  | size (n : Nat)
deriving DecidableEq

/-- The nom error kinds produced by the combinators this codec uses. -/
inductive ErrKind
  | tagKind
  | mapOptKind
  | verifyKind
deriving DecidableEq

/-- `nom::Err`: either incomplete input or a recoverable error positioned at
the input slice where the failing combinator ran (nom 5's default error type
`(&[u8], ErrorKind)` carries no other data). -/
inductive NomErr
  | incomplete (needed : Needed)
  | error (input : List Nat) (kind : ErrKind)
deriving DecidableEq

/-- Result type of a nom parser over byte input: remaining input and value. -/
abbrev NResult (α : Type) := Except NomErr (List Nat × α)

instance {ε α : Type} [DecidableEq ε] [DecidableEq α] : DecidableEq (Except ε α)
  | .ok a, .ok b =>
    if h : a = b then .isTrue (by rw [h]) else .isFalse (by intro hh; cases hh; exact h rfl)
  | .ok _, .error _ => .isFalse (by intro h; cases h)
  | .error _, .ok _ => .isFalse (by intro h; cases h)
  | .error a, .error b =>
    if h : a = b then .isTrue (by rw [h]) else .isFalse (by intro hh; cases hh; exact h rfl)

/-- `nom::number::streaming::be_u8`. -/
def beU8 : List Nat → NResult Nat
  | [] => .error (.incomplete (.size 1))
  | b :: rest => .ok (rest, b)

/-- Streaming `tag!(t)` (nom 5): `compare` inspects the overlapping bytes
first — a mismatch anywhere within the overlap is a positioned `Tag` error
even when the input is shorter than the tag; an input that matches the tag
on the whole overlap but is shorter than it is `Incomplete`; a full match
consumes the tag. -/
def ntag (t : List Nat) (input : List Nat) : NResult (List Nat) :=
  if input.take t.length = t.take input.length then
    if input.length < t.length then .error (.incomplete (.size t.length))
    else .ok (input.drop t.length, t)
  else .error (.error input .tagKind)

/-- Streaming `take!(n)`. -/
def ntake (n : Nat) (input : List Nat) : NResult (List Nat) :=
  if input.length < n then .error (.incomplete (.size n))
  else .ok (input.drop n, input.take n)

/-- `map!(be_u8, f)`. -/
def mapByte (f : Nat → α) (input : List Nat) : NResult α :=
  match beU8 input with
  | .error e => .error e
  | .ok (rest, b) => .ok (rest, f b)

/-- `map_opt!(be_u8, f)`: fails with a `MapOpt` error at the original input
when `f` returns `none`. -/
def mapOptByte (f : Nat → Option α) (input : List Nat) : NResult α :=
  match beU8 input with
  | .error e => .error e
  | .ok (rest, b) =>
    match f b with
    | some v => .ok (rest, v)
    | none => .error (.error input .mapOptKind)

/-- `cond!(c, p)`: run `p` only when the flag holds, else produce `none`
without consuming input. -/
def condParse (c : Bool) (p : List Nat → NResult α) (input : List Nat) :
    NResult (Option α) :=
  if c then
    match p input with
    | .error e => .error e
    | .ok (rest, v) => .ok (rest, some v)
  else .ok (input, none)

/-! ## `src/protocol/types.rs` -/

/-- `Power` (`types.rs`). -/
inductive Power
  | on
  | off
  | unknown
deriving DecidableEq

/-- `impl From<u8> for Power`. -/
def Power.fromByte (byte : Nat) : Power :=
  if byte = 0 then .off
  else if byte = 1 then .on
  else .unknown

/-- `impl OneByteEncodable for Power`. -/
def Power.encoded_as_byte : Power → Nat
  | .off => 0x00
  | .on => 0x01
  | .unknown => 0x00

/-- Modelled from the spec: `Power::from_repr` is called from the nom parsers
in `frame_data.rs` via `map_opt!` but is not defined anywhere under `src/`.
The spec (§3, §7) requires enumeration decoding to be total and never fail,
degrading any byte outside the table to `Unknown`, so `from_repr` is modelled
as the total table lookup wrapped in `some`. -/
def Power.from_repr (byte : Nat) : Option Power :=
  some (Power.fromByte byte)

/-- `Mode` (`types.rs`). -/
inductive Mode
  | heat
  | dry
  | cool
  | fan
  | auto
  | unknown
deriving DecidableEq

/-- `impl From<u8> for Mode`. -/
def Mode.fromByte (byte : Nat) : Mode :=
  if byte = 1 then .heat
  else if byte = 2 then .dry
  else if byte = 3 then .cool
  else if byte = 7 then .fan
  else if byte = 8 then .auto
  else .unknown

/-- `impl OneByteEncodable for Mode`. -/
def Mode.encoded_as_byte : Mode → Nat
  | .heat => 0x01
  | .dry => 0x02
  | .cool => 0x03
  | .fan => 0x07
  | .auto => 0x08
  | .unknown => 0x00

/-- Modelled from the spec: see `Power.from_repr`. -/
def Mode.from_repr (byte : Nat) : Option Mode :=
  some (Mode.fromByte byte)

/-- `Fan` (`types.rs`). -/
inductive Fan
  | auto
  | quiet
  | f1
  | f2
  | f3
  | f4
  | unknown
deriving DecidableEq

/-- `impl From<u8> for Fan`. -/
def Fan.fromByte (byte : Nat) : Fan :=
  if byte = 0 then .auto
  else if byte = 1 then .quiet
  else if byte = 2 then .f1
  else if byte = 3 then .f2
  else if byte = 5 then .f3
  else if byte = 6 then .f4
  else .unknown

/-- `impl OneByteEncodable for Fan`. -/
def Fan.encoded_as_byte : Fan → Nat
  | .auto => 0x00
  | .quiet => 0x01
  | .f1 => 0x02
  | .f2 => 0x03
  | .f3 => 0x05
  | .f4 => 0x06
  | .unknown => 0x00

/-- Modelled from the spec: see `Power.from_repr`. -/
def Fan.from_repr (byte : Nat) : Option Fan :=
  some (Fan.fromByte byte)

/-- `Vane` (`types.rs`). -/
inductive Vane
  | auto
  | v1
  | v2
  | v3
  | v4
  | v5
  | swing
  | unknown
deriving DecidableEq

/-- `impl From<u8> for Vane`. -/
def Vane.fromByte (byte : Nat) : Vane :=
  if byte = 0 then .auto
  else if byte = 1 then .v1
  else if byte = 2 then .v2
  else if byte = 3 then .v3
  else if byte = 4 then .v4
  else if byte = 5 then .v5
  else if byte = 7 then .swing
  else .unknown

/-- `impl OneByteEncodable for Vane`. -/
def Vane.encoded_as_byte : Vane → Nat
  | .auto => 0x00
  | .v1 => 0x01
  | .v2 => 0x02
  | .v3 => 0x03
  | .v4 => 0x04
  | .v5 => 0x05
  | .swing => 0x07
  | .unknown => 0x00

/-- Modelled from the spec: see `Power.from_repr`. -/
def Vane.from_repr (byte : Nat) : Option Vane :=
  some (Vane.fromByte byte)

/-- `WideVane` (`types.rs`). -/
inductive WideVane
  | ll
  | l
  | center
  | r
  | rr
  | lr
  | swing
  | unknown
deriving DecidableEq

/-- `impl From<u8> for WideVane`. -/
def WideVane.fromByte (byte : Nat) : WideVane :=
  if byte = 0x1 then .ll
  else if byte = 0x2 then .l
  else if byte = 0x3 then .center
  else if byte = 0x4 then .r
  else if byte = 0x5 then .rr
  else if byte = 0x8 then .lr
  else if byte = 0xc then .swing
  else .unknown

/-- `impl OneByteEncodable for WideVane`. -/
def WideVane.encoded_as_byte : WideVane → Nat
  | .ll => 0x01
  | .l => 0x02
  | .center => 0x03
  | .r => 0x04
  | .rr => 0x05
  | .lr => 0x08
  | .swing => 0x0c
  | .unknown => 0x00

/-- Modelled from the spec: see `Power.from_repr`. -/
def WideVane.from_repr (byte : Nat) : Option WideVane :=
  some (WideVane.fromByte byte)

/-- `ISee` (`types.rs`). -/
inductive ISee
  | on
  | off
  | unknown
deriving DecidableEq

/-- `impl From<u8> for ISee`. -/
def ISee.fromByte (byte : Nat) : ISee :=
  if byte = 0 then .off
  else if byte = 1 then .on
  else .unknown

/-- Modelled from the spec: see `Power.from_repr`. -/
def ISee.from_repr (byte : Nat) : Option ISee :=
  some (ISee.fromByte byte)

/-- `Temperature` (`types.rs`): three alternate byte encodings. -/
inductive Temperature
  | halfDegreesCPlusOffset (value : Nat)
  | setpointMapped (value : Nat)
  | roomTempMapped (value : Nat)
deriving DecidableEq

/-- `Temperature::celsius_tenths` (`types.rs`).  The Rust body does plain `u8`
arithmetic (`(value - 128) * 5`, `(0x1f - value) * 10`, `(value + 10) * 10`);
in release builds that arithmetic wraps modulo 256, which the model makes
explicit (`value - 128` on u8 equals `value + 128` modulo 256). -/
def Temperature.celsius_tenths : Temperature → Nat
  | .halfDegreesCPlusOffset value => ((value + 128) % 256) * 5 % 256
  | .setpointMapped value => ((0x1f + 256 - value % 256) % 256) * 10 % 256
  | .roomTempMapped value => ((value % 256 + 10) % 256) * 10 % 256

/-- `TenthDegreesC::encode_as_setpoint_mapped` (`types.rs`): `0x1f - self.0 / 10`
with u8 wraparound made explicit (no wrap occurs for in-range u8 inputs). -/
def TenthDegreesC.encode_as_setpoint_mapped (t : Nat) : Nat :=
  (0x1f + 256 - t / 10 % 256) % 256

/-- `TenthDegreesC::encode_as_room_temp_mapped` (`types.rs`): `self.0 / 10 - 10`
with u8 wraparound made explicit. -/
def TenthDegreesC.encode_as_room_temp_mapped (t : Nat) : Nat :=
  (t / 10 % 256 + 256 - 10) % 256

/-- `TenthDegreesC::encode_as_half_deg_plus_offset` (`types.rs`):
`self.0 / 5 + 128` with u8 wraparound made explicit. -/
def TenthDegreesC.encode_as_half_deg_plus_offset (t : Nat) : Nat :=
  (t / 5 % 256 + 128) % 256

/-! ## `src/protocol/frame.rs` -/

/-- `DataType` (`frame.rs`): the frame-type byte's enumeration
(the spec calls this `FrameType`). -/
inductive DataType
  | setRequest
  | getInfoRequest
  | connectRequest
  | setResponse
  | getInfoResponse
  | connectResponse
  | unknown
deriving DecidableEq

/-- `impl From<u8> for DataType`. -/
def DataType.fromByte (byte : Nat) : DataType :=
  if byte = 0x41 then .setRequest
  else if byte = 0x42 then .getInfoRequest
  else if byte = 0x5a then .connectRequest
  else if byte = 0x61 then .setResponse
  else if byte = 0x62 then .getInfoResponse
  else if byte = 0x7a then .connectResponse
  else .unknown

/-- The `#[repr(u8)]` discriminant used by `data_type as u8` / `as u32`. -/
def DataType.toByte : DataType → Nat
  | .setRequest => 0x41
  | .getInfoRequest => 0x42
  | .connectRequest => 0x5a
  | .setResponse => 0x61
  | .getInfoResponse => 0x62
  | .connectResponse => 0x7a
  | .unknown => 0xff

/-- `EncodingError` (`encoding.rs`). -/
inductive EncodingError
  | bufferTooSmall
  | unknownDataType
  | notImplemented
deriving DecidableEq

/-- `Frame<&[u8]>` (`frame.rs`): frame type, declared payload length, payload. -/
structure Frame where
  data_type : DataType
  data_len : Nat
  data : List Nat
deriving DecidableEq

/-- `checksum` (`frame.rs`): accumulates start byte, type byte, the constants
0x01 and 0x30, the length byte and every payload byte as wrapping u32, then
computes `0xfc - (sum as u8)` with u8 wraparound. -/
def checksum (data_type : DataType) (data_len : Nat) (data : List Nat) : Nat :=
  let header_sum :=
    ((((0xfc + data_type.toByte) % 4294967296 + 0x01) % 4294967296 + 0x30)
        % 4294967296 + data_len % 4294967296) % 4294967296
  let sum := data.foldl (fun acc b => (acc + b % 4294967296) % 4294967296) header_sum
  (0xfc + (256 - sum % 256)) % 256

/-- `Frame::parse` (`frame.rs`): the `do_parse!` pipeline
`tag!(0xfc) >> be_u8 type >> tag!(0x01, 0x30) >> be_u8 length >>
take!(length) payload >> verify!(be_u8, checksum)`. -/
def Frame.parse (input : List Nat) : NResult Frame :=
  match ntag [0xfc] input with
  | .error e => .error e
  | .ok (i1, _) =>
  match beU8 i1 with
  | .error e => .error e
  | .ok (i2, dtb) =>
  match ntag [0x01, 0x30] i2 with
  | .error e => .error e
  | .ok (i3, _) =>
  match beU8 i3 with
  | .error e => .error e
  | .ok (i4, data_len) =>
  match ntake data_len i4 with
  | .error e => .error e
  | .ok (i5, data) =>
  match beU8 i5 with
  | .error e => .error e
  | .ok (i6, b) =>
    if b = checksum (DataType.fromByte dtb) data_len data then
      .ok (i6, ⟨DataType.fromByte dtb, data_len, data⟩)
    else .error (.error i5 .verifyKind)

/-- The envelope marker bytes `Frame::parse` checks within its first six
bytes: the start marker 0xfc at offset 0 and the constants 0x01 and 0x30 at
offsets 2 and 3, each constrained only when the buffer is long enough to
contain it (offsets 1 and 4 hold the unconstrained type and length bytes).
An input shorter than 6 bytes satisfying this predicate is exactly a prefix
of some well-formed envelope. -/
def envelopeMarkersOk (input : List Nat) : Prop :=
  (1 ≤ input.length → input.getD 0 0 = 0xfc) ∧
  (3 ≤ input.length → input.getD 2 0 = 0x01) ∧
  (4 ≤ input.length → input.getD 3 0 = 0x30)

instance (input : List Nat) : Decidable (envelopeMarkersOk input) := by
  unfold envelopeMarkersOk
  infer_instance

/-- `impl Encodable for &[u8]` (`encoding.rs`): copy `src` into the
destination region iff the lengths match; returns the result together with
the region's new contents (the Rust function mutates through `&mut [u8]`). -/
def sliceEncode (src : List Nat) (into : List Nat) :
    Except EncodingError Nat × List Nat :=
  if into.length ≠ src.length then (.error .bufferTooSmall, into)
  else (.ok src.length, src)

/-- `impl Encodable for Frame<T>` (`frame.rs`) at `T = &[u8]`: returns the
Rust function's result together with the whole destination buffer's new
contents.  The header bytes are written before the payload is encoded, so a
payload-encoding failure still leaves the header written.  (The source's
second `split_at_mut` would panic when the buffer cannot hold the payload
despite passing the `data_len`-based length check; the model's clamped
`take`/`drop` diverge from the source only inside that panicking case.) -/
def Frame.encode (f : Frame) (buf : List Nat) :
    Except EncodingError Nat × List Nat :=
  if buf.length < 5 + f.data_len + 1 then (.error .bufferTooSmall, buf)
  else
    let header := [0xfc, f.data_type.toByte, 0x01, 0x30, f.data.length % 256]
    let rest := buf.drop 5
    let dataBuf := rest.take f.data.length
    let rest2 := rest.drop f.data.length
    match sliceEncode f.data dataBuf with
    | (.error e, dataBuf2) => (.error e, header ++ dataBuf2 ++ rest2)
    | (.ok _, written) =>
      match rest2 with
      | [] => (.error .bufferTooSmall, header ++ written)
      | _ :: tail =>
        (.ok (5 + f.data_len + 1),
          header ++ written ++ checksum f.data_type f.data_len written :: tail)

/-! ## `src/protocol/frame_data.rs` -/

/-- `SetRequest` (`frame_data.rs`): every field independently optional. -/
structure SetRequest where
  power : Option Power
  mode : Option Mode
  temp : Option Temperature
  fan : Option Fan
  vane : Option Vane
  widevane : Option WideVane
deriving DecidableEq

/-- The six flag bits extracted by `SetRequest::parse`'s `bits!` block. -/
structure SetFlags where
  power : Nat
  mode : Nat
  temp : Nat
  fan : Nat
  vane : Nat
  widevane : Nat
deriving DecidableEq

/-- The `bits!` block of `SetRequest::parse`: over two bytes, MSB-first,
skip 3 bits, then vane, fan, temp, mode, power (bits 4..0 of the first
byte), then skip 7 bits and read widevane (bit 0 of the second byte). -/
def parseSetFlags : List Nat → NResult SetFlags
  | b0 :: b1 :: rest =>
    .ok (rest, ⟨b0 % 2, b0 / 2 % 2, b0 / 4 % 2, b0 / 8 % 2, b0 / 16 % 2, b1 % 2⟩)
  | _ => .error (.incomplete (.size 2))

/-- `SetRequest::parse` (`frame_data.rs`): constant 0x01, two flag bytes,
then each field conditionally on its flag bit (the setpoint-mapped
temperature byte is parsed but discarded; the half-degree byte near the end
is the one retained), with the fixed padding skips. -/
def SetRequest.parse (input : List Nat) : NResult SetRequest :=
  match ntag [0x01] input with
  | .error e => .error e
  | .ok (i1, _) =>
  match parseSetFlags i1 with
  | .error e => .error e
  | .ok (i2, flags) =>
  match condParse (flags.power = 1) (mapOptByte Power.from_repr) i2 with
  | .error e => .error e
  | .ok (i3, power) =>
  match condParse (flags.mode = 1) (mapOptByte Mode.from_repr) i3 with
  | .error e => .error e
  | .ok (i4, mode) =>
  match condParse (flags.temp = 1) (mapByte Temperature.setpointMapped) i4 with
  | .error e => .error e
  | .ok (i5, _) =>
  match condParse (flags.fan = 1) (mapOptByte Fan.from_repr) i5 with
  | .error e => .error e
  | .ok (i6, fan) =>
  match condParse (flags.vane = 1) (mapOptByte Vane.from_repr) i6 with
  | .error e => .error e
  | .ok (i7, vane) =>
  match ntake 5 i7 with
  | .error e => .error e
  | .ok (i8, _) =>
  match condParse (flags.widevane = 1) (mapOptByte WideVane.from_repr) i8 with
  | .error e => .error e
  | .ok (i9, widevane) =>
  match condParse (flags.temp = 1) (mapByte Temperature.halfDegreesCPlusOffset) i9 with
  | .error e => .error e
  | .ok (i10, temp) =>
  match ntake 1 i10 with
  | .error e => .error e
  | .ok (i11, _) => .ok (i11, ⟨power, mode, temp, fan, vane, widevane⟩)

/-- `SetRequest::encode_flags` (`frame_data.rs`): the two flag bytes, one bit
per present optional field. -/
def SetRequest.encode_flags (r : SetRequest) : Nat × Nat :=
  ((if r.power.isSome then 1 else 0) +
   (if r.mode.isSome then 2 else 0) +
   (if r.temp.isSome then 4 else 0) +
   (if r.fan.isSome then 8 else 0) +
   (if r.vane.isSome then 16 else 0),
   if r.widevane.isSome then 1 else 0)

/-- `SetRequest::encode` (`frame_data.rs`): requires a destination of exactly
16 bytes; writes the constant byte, the flag bytes, each present field's
byte at its fixed offset and the padding zeros.  `Option::encode` writes
nothing for `None`, so an absent power/mode/fan/vane/widevane field leaves
that destination byte's previous content in place, while an absent
temperature writes 0x00 at offsets 5 and 14.  Result is paired with the
buffer's new contents. -/
def SetRequest.encode (r : SetRequest) (buf : List Nat) :
    Except EncodingError Nat × List Nat :=
  if buf.length ≠ 16 then (.error .bufferTooSmall, buf)
  else
    let fl := r.encode_flags
    (.ok 16,
      [0x01, fl.1, fl.2,
       (match r.power with
        | some p => p.encoded_as_byte
        | none => buf.getD 3 0),
       (match r.mode with
        | some m => m.encoded_as_byte
        | none => buf.getD 4 0),
       (match r.temp with
        | some t => TenthDegreesC.encode_as_setpoint_mapped t.celsius_tenths
        | none => 0x00),
       (match r.fan with
        | some f => f.encoded_as_byte
        | none => buf.getD 6 0),
       (match r.vane with
        | some v => v.encoded_as_byte
        | none => buf.getD 7 0),
       0, 0, 0, 0, 0,
       (match r.widevane with
        | some w => w.encoded_as_byte
        | none => buf.getD 13 0),
       (match r.temp with
        | some t => TenthDegreesC.encode_as_half_deg_plus_offset t.celsius_tenths
        | none => 0x00),
       0])

/-- `InfoType` (`frame_data.rs`). -/
inductive InfoType
  | settings
  | roomTemp
  | type4
  | timers
  | status
  | maybeStandby
  | unknown
deriving DecidableEq

/-- `impl From<u8> for InfoType`. -/
def InfoType.fromByte (byte : Nat) : InfoType :=
  if byte = 0x02 then .settings
  else if byte = 0x03 then .roomTemp
  else if byte = 0x04 then .type4
  else if byte = 0x05 then .timers
  else if byte = 0x06 then .status
  else if byte = 0x09 then .maybeStandby
  else .unknown

/-- The `#[repr(u8)]` discriminant used by `InfoType as u8`. -/
def InfoType.toByte : InfoType → Nat
  | .settings => 0x02
  | .roomTemp => 0x03
  | .type4 => 0x04
  | .timers => 0x05
  | .status => 0x06
  | .maybeStandby => 0x09
  | .unknown => 0xff

/-- `GetInfoRequest` (`frame_data.rs`). -/
structure GetInfoRequest where
  info_type : InfoType
deriving DecidableEq

/-- `GetInfoRequest::parse` (`frame_data.rs`). -/
def GetInfoRequest.parse (input : List Nat) : NResult GetInfoRequest :=
  match mapByte InfoType.fromByte input with
  | .error e => .error e
  | .ok (i1, info_type) =>
  match ntake 15 i1 with
  | .error e => .error e
  | .ok (i2, _) => .ok (i2, ⟨info_type⟩)

/-- `GetInfoRequest::encode` (`frame_data.rs`): info-type byte plus 15 zero
bytes into a destination of exactly 16 bytes. -/
def GetInfoRequest.encode (r : GetInfoRequest) (buf : List Nat) :
    Except EncodingError Nat × List Nat :=
  if buf.length ≠ 16 then (.error .bufferTooSmall, buf)
  else (.ok 16, r.info_type.toByte :: List.replicate 15 0)

/-- `ConnectRequest` (`frame_data.rs`): a unit type with two magic bytes. -/
structure ConnectRequest where
deriving DecidableEq

/-- `ConnectRequest::parse` (`frame_data.rs`). -/
def ConnectRequest.parse (input : List Nat) : NResult ConnectRequest :=
  match ntag [0xca, 0x01] input with
  | .error e => .error e
  | .ok (i1, _) => .ok (i1, ⟨⟩)

/-- `ConnectRequest::encode` (`frame_data.rs`). -/
def ConnectRequest.encode (_ : ConnectRequest) (buf : List Nat) :
    Except EncodingError Nat × List Nat :=
  if buf.length ≠ 2 then (.error .bufferTooSmall, buf)
  else (.ok 2, [0xca, 0x01])

/-- `SetResponse` (`frame_data.rs`): 16 opaque bytes, content discarded. -/
structure SetResponse where
deriving DecidableEq

/-- `SetResponse::parse` (`frame_data.rs`). -/
def SetResponse.parse (input : List Nat) : NResult SetResponse :=
  match ntake 16 input with
  | .error e => .error e
  | .ok (i1, _) => .ok (i1, ⟨⟩)

/-- `GetInfoResponse` (`frame_data.rs`). -/
inductive GetInfoResponse
  | settings (power : Power) (mode : Mode) (setpoint : Temperature)
      (fan : Fan) (vane : Vane) (widevane : WideVane) (isee : ISee)
  | roomTemperature (temperature : Temperature)
  | status (compressor_frequency : Nat) (operating : Nat)
  | unknown
deriving DecidableEq

/-- The `bits!` block of `GetInfoResponse::decode_settings`: one byte holding
4 skipped bits, a 1-bit ISee flag and a 3-bit Mode value, MSB-first. -/
def parseModeIsee : List Nat → NResult (ISee × Mode)
  | [] => .error (.incomplete (.size 1))
  | b :: rest =>
    match ISee.from_repr (b / 8 % 2), Mode.from_repr (b % 8) with
    | some isee, some mode => .ok (rest, (isee, mode))
    | _, _ => .error (.error (b :: rest) .mapOptKind)

/-- `GetInfoResponse::decode_settings` (`frame_data.rs`): tag 0x02, two
skipped bytes, power, the mode/isee bit field, the setpoint-mapped byte, fan,
vane, two skipped bytes, widevane, the half-degree setpoint byte (authoritative
unless it is zero), four skipped bytes. -/
def GetInfoResponse.decode_settings (input : List Nat) : NResult GetInfoResponse :=
  -- the tag byte is `InfoType::Settings as u8 = 0x02`
  match ntag [0x02] input with
  | .error e => .error e
  | .ok (i1, _) =>
  match ntake 2 i1 with
  | .error e => .error e
  | .ok (i2, _) =>
  match mapOptByte Power.from_repr i2 with
  | .error e => .error e
  | .ok (i3, power) =>
  match parseModeIsee i3 with
  | .error e => .error e
  | .ok (i4, mi) =>
  match mapByte Temperature.setpointMapped i4 with
  | .error e => .error e
  | .ok (i5, setpoint_mapped) =>
  match mapOptByte Fan.from_repr i5 with
  | .error e => .error e
  | .ok (i6, fan) =>
  match mapOptByte Vane.from_repr i6 with
  | .error e => .error e
  | .ok (i7, vane) =>
  match ntake 2 i7 with
  | .error e => .error e
  | .ok (i8, _) =>
  match mapOptByte WideVane.from_repr i8 with
  | .error e => .error e
  | .ok (i9, widevane) =>
  match mapByte Temperature.halfDegreesCPlusOffset i9 with
  | .error e => .error e
  | .ok (i10, setpoint_half_deg) =>
  match ntake 4 i10 with
  | .error e => .error e
  | .ok (i11, _) =>
    let setpoint :=
      match setpoint_mapped, setpoint_half_deg with
      | s, .halfDegreesCPlusOffset 0 => s
      | _, s => s
    .ok (i11, .settings power mi.2 setpoint fan vane widevane mi.1)

/-- `GetInfoResponse::decode_room_temp` (`frame_data.rs`): tag 0x03, two
skipped bytes, the room-temp-mapped byte, two skipped bytes, the half-degree
byte (authoritative unless zero), nine skipped bytes. -/
def GetInfoResponse.decode_room_temp (input : List Nat) : NResult GetInfoResponse :=
  -- the tag byte is `InfoType::RoomTemp as u8 = 0x03`
  match ntag [0x03] input with
  | .error e => .error e
  | .ok (i1, _) =>
  match ntake 2 i1 with
  | .error e => .error e
  | .ok (i2, _) =>
  match mapByte Temperature.roomTempMapped i2 with
  | .error e => .error e
  | .ok (i3, mapped) =>
  match ntake 2 i3 with
  | .error e => .error e
  | .ok (i4, _) =>
  match mapByte Temperature.halfDegreesCPlusOffset i4 with
  | .error e => .error e
  | .ok (i5, half_deg) =>
  match ntake 9 i5 with
  | .error e => .error e
  | .ok (i6, _) =>
    let temperature :=
      match half_deg, mapped with
      | .halfDegreesCPlusOffset 0, t => t
      | t, _ => t
    .ok (i6, .roomTemperature temperature)

/-- `GetInfoResponse::decode_timer` (`frame_data.rs`): consumes only the tag
byte 0x05 and yields `Unknown`. -/
def GetInfoResponse.decode_timer (input : List Nat) : NResult GetInfoResponse :=
  -- the tag byte is `InfoType::Timers as u8 = 0x05`
  match ntag [0x05] input with
  | .error e => .error e
  | .ok (i1, _) => .ok (i1, .unknown)

/-- `GetInfoResponse::decode_status` (`frame_data.rs`): tag 0x06, two skipped
bytes, compressor frequency, operating. -/
def GetInfoResponse.decode_status (input : List Nat) : NResult GetInfoResponse :=
  -- the tag byte is `InfoType::Status as u8 = 0x06`
  match ntag [0x06] input with
  | .error e => .error e
  | .ok (i1, _) =>
  match ntake 2 i1 with
  | .error e => .error e
  | .ok (i2, _) =>
  match beU8 i2 with
  | .error e => .error e
  | .ok (i3, compressor_frequency) =>
  match beU8 i3 with
  | .error e => .error e
  | .ok (i4, operating) => .ok (i4, .status compressor_frequency operating)

/-- `GetInfoResponse::decode_unknown` (`frame_data.rs`): always succeeds,
consuming nothing. -/
def GetInfoResponse.decode_unknown (input : List Nat) : NResult GetInfoResponse :=
  .ok (input, .unknown)

/-- `impl Parseable for GetInfoResponse` (`frame_data.rs`): nom's `alt!` over
the five decoders.  `alt!` moves to the next alternative only on a
recoverable `Err::Error`; `Ok` and `Err::Incomplete` are returned as is. -/
def GetInfoResponse.parse (input : List Nat) : NResult GetInfoResponse :=
  match GetInfoResponse.decode_settings input with
  | .error (.error _ _) =>
    match GetInfoResponse.decode_room_temp input with
    | .error (.error _ _) =>
      match GetInfoResponse.decode_timer input with
      | .error (.error _ _) =>
        match GetInfoResponse.decode_status input with
        | .error (.error _ _) => GetInfoResponse.decode_unknown input
        | r => r
      | r => r
    | r => r
  | r => r

/-- `ConnectResponse` (`frame_data.rs`): a single opaque byte. -/
structure ConnectResponse where
  byte : Nat
deriving DecidableEq

/-- `ConnectResponse::parse` (`frame_data.rs`). -/
def ConnectResponse.parse (input : List Nat) : NResult ConnectResponse :=
  match beU8 input with
  | .error e => .error e
  | .ok (i1, b) => .ok (i1, ⟨b⟩)

/-- `FrameData` (`frame_data.rs`). -/
inductive FrameData
  | setRequest (r : SetRequest)
  | getInfoRequest (r : GetInfoRequest)
  | connectRequest (r : ConnectRequest)
  | setResponse (r : SetResponse)
  | getInfoResponse (r : GetInfoResponse)
  | connectResponse (r : ConnectResponse)
  | unknown
deriving DecidableEq

/-- `FrameData::encode` (`frame_data.rs`): requests delegate to their payload
encoders; the three response variants are `NotImplemented`; `Unknown` is
`UnknownDataType`.  The result is paired with the buffer's (new) contents;
the error arms return it untouched, as the Rust arms do not write. -/
def FrameData.encode (d : FrameData) (buf : List Nat) :
    Except EncodingError Nat × List Nat :=
  match d with
  | .setRequest r => r.encode buf
  | .getInfoRequest r => r.encode buf
  | .connectRequest r => r.encode buf
  | .setResponse _ => (.error .notImplemented, buf)
  | .getInfoResponse _ => (.error .notImplemented, buf)
  | .connectResponse _ => (.error .notImplemented, buf)
  | .unknown => (.error .unknownDataType, buf)

/-- The byte layout produced by `SetRequest::encode` into a 16-byte
destination `buf`: the call succeeds with 16 bytes; byte 0 is the constant
0x01; flag byte 1 has bits 0..4 set exactly for present power, mode, temp,
fan and vane; flag byte 2 has bit 0 set exactly for a present widevane; each
present field's byte sits at its fixed offset; an absent temperature writes
0x00 at offsets 5 and 14 while an absent power/mode/fan/vane/widevane leaves
the destination's previous byte in place; the padding bytes 8..12 and 15 are
zeroed. -/
def SetRequestEncodeLayout (r : SetRequest) (buf : List Nat) : Prop :=
  (SetRequest.encode r buf).1 = .ok 16 ∧
  (SetRequest.encode r buf).2.length = 16 ∧
  (SetRequest.encode r buf).2.getD 0 0 = 0x01 ∧
  ((SetRequest.encode r buf).2.getD 1 0).testBit 0 = r.power.isSome ∧
  ((SetRequest.encode r buf).2.getD 1 0).testBit 1 = r.mode.isSome ∧
  ((SetRequest.encode r buf).2.getD 1 0).testBit 2 = r.temp.isSome ∧
  ((SetRequest.encode r buf).2.getD 1 0).testBit 3 = r.fan.isSome ∧
  ((SetRequest.encode r buf).2.getD 1 0).testBit 4 = r.vane.isSome ∧
  ((SetRequest.encode r buf).2.getD 2 0).testBit 0 = r.widevane.isSome ∧
  (∀ p, r.power = some p →
    (SetRequest.encode r buf).2.getD 3 0 = p.encoded_as_byte) ∧
  (r.power = none → (SetRequest.encode r buf).2.getD 3 0 = buf.getD 3 0) ∧
  (∀ m, r.mode = some m →
    (SetRequest.encode r buf).2.getD 4 0 = m.encoded_as_byte) ∧
  (r.mode = none → (SetRequest.encode r buf).2.getD 4 0 = buf.getD 4 0) ∧
  (∀ t, r.temp = some t → (SetRequest.encode r buf).2.getD 5 0 =
    TenthDegreesC.encode_as_setpoint_mapped t.celsius_tenths) ∧
  (r.temp = none → (SetRequest.encode r buf).2.getD 5 0 = 0) ∧
  (∀ f, r.fan = some f →
    (SetRequest.encode r buf).2.getD 6 0 = f.encoded_as_byte) ∧
  (r.fan = none → (SetRequest.encode r buf).2.getD 6 0 = buf.getD 6 0) ∧
  (∀ v, r.vane = some v →
    (SetRequest.encode r buf).2.getD 7 0 = v.encoded_as_byte) ∧
  (r.vane = none → (SetRequest.encode r buf).2.getD 7 0 = buf.getD 7 0) ∧
  ((SetRequest.encode r buf).2.getD 8 0 = 0 ∧
   (SetRequest.encode r buf).2.getD 9 0 = 0 ∧
   (SetRequest.encode r buf).2.getD 10 0 = 0 ∧
   (SetRequest.encode r buf).2.getD 11 0 = 0 ∧
   (SetRequest.encode r buf).2.getD 12 0 = 0) ∧
  (∀ w, r.widevane = some w →
    (SetRequest.encode r buf).2.getD 13 0 = w.encoded_as_byte) ∧
  (r.widevane = none → (SetRequest.encode r buf).2.getD 13 0 = buf.getD 13 0) ∧
  (∀ t, r.temp = some t → (SetRequest.encode r buf).2.getD 14 0 =
    TenthDegreesC.encode_as_half_deg_plus_offset t.celsius_tenths) ∧
  (r.temp = none → (SetRequest.encode r buf).2.getD 14 0 = 0) ∧
  (SetRequest.encode r buf).2.getD 15 0 = 0

/-- The doc-comment vector of `frame.rs`: a `ConnectRequest` frame parses. -/
theorem frame_parse_doc_vector : Frame.parse [0xfc, 0x5a, 0x01, 0x30, 0x02, 0xca, 0x01, 0xa8] =
    .ok ([], ⟨.connectRequest, 2, [0xca, 0x01]⟩) := by decide

/-- `checksum_test` from `frame.rs`. -/
theorem checksum_test_vector : checksum .connectRequest 0x02 [0xca, 0x01] = 0xa8 := by decide

/-- `encode_test` from `frame.rs`. -/
theorem frame_encode_test_vector : (Frame.encode ⟨.connectRequest, 2, [0xca, 0x01]⟩
    (List.replicate 8 0)).2 = [0xfc, 0x5a, 0x01, 0x30, 0x02, 0xca, 0x01, 0xa8] := by
  decide

/-- `parse_set_request_test` from `frame_data.rs`. -/
theorem set_request_parse_test_vector : SetRequest.parse
    [0x01, 0x1f, 0x01, 0x01, 0x08, 0x0a, 0x00, 0x07,
     0x00, 0x00, 0x00, 0x00, 0x00, 0x01, 0xaa, 0x00] =
    .ok ([], ⟨some .on, some .auto, some (.halfDegreesCPlusOffset 0xaa),
      some .auto, some .swing, some .ll⟩) := by decide

/-- `encode_set_request_test` from `frame_data.rs`. -/
theorem set_request_encode_test_vector : SetRequest.encode
    ⟨some .on, some .auto, some (.halfDegreesCPlusOffset 0xaa),
      some .auto, some .swing, some .ll⟩ (List.replicate 16 0) =
    (.ok 16, [0x01, 0x1f, 0x01, 0x01, 0x08, 0x0a, 0x00, 0x07,
      0x00, 0x00, 0x00, 0x00, 0x00, 0x01, 0xaa, 0x00]) := by decide

/-- `parse_get_info_response_settings_test` from `frame_data.rs`. -/
theorem settings_decode_test_vector : GetInfoResponse.decode_settings
    [0x02, 0x00, 0x00, 0x01, 0x01, 0x0f, 0x00, 0x07,
     0x00, 0x00, 0x03, 0x94, 0x00, 0x00, 0x00, 0x00] =
    .ok ([], .settings .on .heat (.halfDegreesCPlusOffset 0x94)
      .auto .swing .center .off) := by decide

/-- First half of `parse_get_info_response_room_temp_test` from `frame_data.rs`. -/
theorem room_temp_decode_test_vector_half : GetInfoResponse.decode_room_temp
    [0x03, 0x00, 0x00, 0x0b, 0x00, 0x00, 0xaa, 0x00,
     0x00, 0x00, 0x00, 0x00, 0x00, 0x00, 0x00, 0x00] =
    .ok ([], .roomTemperature (.halfDegreesCPlusOffset 0xaa)) := by decide

/-- Second half of `parse_get_info_response_room_temp_test` from `frame_data.rs`. -/
theorem room_temp_decode_test_vector_mapped : GetInfoResponse.decode_room_temp
    [0x03, 0x00, 0x00, 0x0b, 0x00, 0x00, 0x00, 0x00,
     0x00, 0x00, 0x00, 0x00, 0x00, 0x00, 0x00, 0x00] =
    .ok ([], .roomTemperature (.roomTempMapped 0x0b)) := by decide

/-! ## Combinator evaluation and inversion lemmas -/

theorem InfoType.settings_toByte : InfoType.settings.toByte = 0x02 := rfl

theorem InfoType.roomTemp_toByte : InfoType.roomTemp.toByte = 0x03 := rfl

theorem InfoType.timers_toByte : InfoType.timers.toByte = 0x05 := rfl

theorem InfoType.status_toByte : InfoType.status.toByte = 0x06 := rfl

theorem beU8_cons (b : Nat) (l : List Nat) : beU8 (b :: l) = .ok (l, b) := rfl

theorem ntag1_cons (a : Nat) (l : List Nat) : ntag [a] (a :: l) = .ok (l, [a]) := by
  simp [ntag]

theorem ntag1_cons_ne {a b : Nat} (h : b ≠ a) (l : List Nat) :
    ntag [a] (b :: l) = .error (.error (b :: l) .tagKind) := by
  simp [ntag, h]

theorem ntag2_cons (a b : Nat) (l : List Nat) :
    ntag [a, b] (a :: b :: l) = .ok (l, [a, b]) := by
  simp [ntag]

theorem ntake_exact (l t : List Nat) : ntake l.length (l ++ t) = .ok (t, l) := by
  simp [ntake, List.take_left, List.drop_left]

theorem ntake1_cons (a : Nat) (l : List Nat) : ntake 1 (a :: l) = .ok (l, [a]) :=
  ntake_exact [a] l

theorem ntake2_cons (a b : Nat) (l : List Nat) :
    ntake 2 (a :: b :: l) = .ok (l, [a, b]) :=
  ntake_exact [a, b] l

theorem ntake4_cons (a b c d : Nat) (l : List Nat) :
    ntake 4 (a :: b :: c :: d :: l) = .ok (l, [a, b, c, d]) :=
  ntake_exact [a, b, c, d] l

theorem ntake5_cons (a b c d e : Nat) (l : List Nat) :
    ntake 5 (a :: b :: c :: d :: e :: l) = .ok (l, [a, b, c, d, e]) :=
  ntake_exact [a, b, c, d, e] l

theorem ntake9_cons (a b c d e f g i j : Nat) (l : List Nat) :
    ntake 9 (a :: b :: c :: d :: e :: f :: g :: i :: j :: l) =
      .ok (l, [a, b, c, d, e, f, g, i, j]) :=
  ntake_exact [a, b, c, d, e, f, g, i, j] l

theorem mapByte_cons {α : Type} (f : Nat → α) (b : Nat) (l : List Nat) :
    mapByte f (b :: l) = .ok (l, f b) := rfl

theorem mapOptPower_cons (b : Nat) (l : List Nat) :
    mapOptByte Power.from_repr (b :: l) = .ok (l, Power.fromByte b) := rfl

theorem mapOptMode_cons (b : Nat) (l : List Nat) :
    mapOptByte Mode.from_repr (b :: l) = .ok (l, Mode.fromByte b) := rfl

theorem mapOptFan_cons (b : Nat) (l : List Nat) :
    mapOptByte Fan.from_repr (b :: l) = .ok (l, Fan.fromByte b) := rfl

theorem mapOptVane_cons (b : Nat) (l : List Nat) :
    mapOptByte Vane.from_repr (b :: l) = .ok (l, Vane.fromByte b) := rfl

theorem mapOptWideVane_cons (b : Nat) (l : List Nat) :
    mapOptByte WideVane.from_repr (b :: l) = .ok (l, WideVane.fromByte b) := rfl

theorem parseModeIsee_cons (b : Nat) (l : List Nat) :
    parseModeIsee (b :: l) = .ok (l, (ISee.fromByte (b / 8 % 2), Mode.fromByte (b % 8))) :=
  rfl

theorem beU8_err {i : List Nat} {e : NomErr} (h : beU8 i = .error e) :
    e = .incomplete (.size 1) := by
  cases i <;> simp [beU8] at h
  exact h.symm

theorem ntake_err {n : Nat} {i : List Nat} {e : NomErr} (h : ntake n i = .error e) :
    e = .incomplete (.size n) := by
  unfold ntake at h
  split at h <;> simp_all

theorem ntag_err {t i : List Nat} {e : NomErr} (h : ntag t i = .error e) :
    e = .incomplete (.size t.length) ∨ e = .error i .tagKind := by
  unfold ntag at h
  split at h
  · split at h
    · simp_all
    · simp at h
  · simp_all

theorem mapByte_err {α : Type} {f : Nat → α} {i : List Nat} {e : NomErr}
    (h : mapByte f i = .error e) : e = .incomplete (.size 1) := by
  cases i <;> simp [mapByte, beU8] at h
  exact h.symm

theorem mapOptByte_err_total {α : Type} {f : Nat → Option α}
    (hf : ∀ b, (f b).isSome) {i : List Nat} {e : NomErr}
    (h : mapOptByte f i = .error e) : e = .incomplete (.size 1) := by
  cases i with
  | nil => simp [mapOptByte, beU8] at h; exact h.symm
  | cons b l =>
    obtain ⟨v, hfb⟩ := Option.isSome_iff_exists.mp (hf b)
    simp [mapOptByte, beU8, hfb] at h

theorem parseModeIsee_err {i : List Nat} {e : NomErr}
    (h : parseModeIsee i = .error e) : e = .incomplete (.size 1) := by
  cases i with
  | nil => simp [parseModeIsee] at h; exact h.symm
  | cons b l => rw [parseModeIsee_cons] at h; simp at h

theorem condParse_err {α : Type} {c : Bool} {p : List Nat → NResult α}
    {i : List Nat} {e : NomErr} (h : condParse c p i = .error e) :
    p i = .error e := by
  unfold condParse at h
  split at h
  · split at h <;> simp_all
  · simp at h

theorem ntag_ok {t i r : List Nat} {v : List Nat} (h : ntag t i = .ok (r, v)) :
    t.length ≤ i.length ∧ r = i.drop t.length := by
  unfold ntag at h
  split at h
  · split at h
    · simp at h
    · rename_i hlen
      simp at h
      exact ⟨by omega, h.1.symm⟩
  · simp at h

theorem beU8_ok {i r : List Nat} {b : Nat} (h : beU8 i = .ok (r, b)) :
    i = b :: r := by
  cases i <;> simp [beU8] at h
  simp [h.1, h.2]

theorem ntake_ok {n : Nat} {i r v : List Nat} (h : ntake n i = .ok (r, v)) :
    n ≤ i.length ∧ r = i.drop n := by
  unfold ntake at h
  split at h
  · simp at h
  · rename_i hlen
    simp at h
    exact ⟨by omega, h.1.symm⟩

theorem foldl_wrap32_mod (l : List Nat) : ∀ acc : Nat,
    (l.foldl (fun acc b => (acc + b % 4294967296) % 4294967296) acc) % 256 =
      (acc + l.sum) % 256 := by
  induction l with
  | nil => intro acc; simp
  | cons b t ih =>
    intro acc
    rw [List.foldl_cons, List.sum_cons, ih]
    omega

theorem DataType.fromByte_toByte (dt : DataType) :
    DataType.fromByte dt.toByte = dt := by
  cases dt <;> rfl

theorem frame_encode_exact (ft : DataType) (payload : List Nat)
    (h : payload.length ≤ 255) :
    Frame.encode ⟨ft, payload.length, payload⟩
        (List.replicate (5 + payload.length + 1) 0) =
      (.ok (5 + payload.length + 1),
        0xfc :: ft.toByte :: 0x01 :: 0x30 :: payload.length ::
          (payload ++ [checksum ft payload.length payload])) := by
  have hmod : payload.length % 256 = payload.length := Nat.mod_eq_of_lt (by omega)
  have h5 : 5 + payload.length + 1 - 5 = payload.length + 1 := by omega
  have hmin : min payload.length (payload.length + 1) = payload.length := by omega
  have h1 : payload.length + 1 - payload.length = 1 := by omega
  simp [Frame.encode, sliceEncode, hmod, h5, hmin, h1, List.drop_replicate,
    List.take_replicate]

theorem frame_parse_complete (dtb ck : Nat) (payload rest : List Nat) :
    Frame.parse (0xfc :: dtb :: 0x01 :: 0x30 :: payload.length ::
        (payload ++ ck :: rest)) =
      if ck = checksum (DataType.fromByte dtb) payload.length payload then
        .ok (rest, ⟨DataType.fromByte dtb, payload.length, payload⟩)
      else .error (.error (ck :: rest) .verifyKind) := by
  simp only [Frame.parse, ntag1_cons, beU8_cons, ntag2_cons, ntake_exact]

/-! ## Claim theorems -/

/-- C1: encoding a frame of any frame type with any payload of length at
most 255 into an exactly-sized buffer succeeds, and parsing the resulting
bytes succeeds, yielding the same frame type and the same payload bytes with
an empty unconsumed remainder. -/
theorem frame_roundtrip (ft : DataType) (payload : List Nat)
    (h : payload.length ≤ 255) :
    (Frame.encode ⟨ft, payload.length, payload⟩
        (List.replicate (5 + payload.length + 1) 0)).1 =
      .ok (5 + payload.length + 1) ∧
    Frame.parse (Frame.encode ⟨ft, payload.length, payload⟩
        (List.replicate (5 + payload.length + 1) 0)).2 =
      .ok ([], ⟨ft, payload.length, payload⟩) := by
  have henc := frame_encode_exact ft payload h
  constructor
  · rw [henc]
  · rw [henc]
    rw [show (payload ++ [checksum ft payload.length payload] : List Nat) =
      payload ++ checksum ft payload.length payload :: [] from rfl]
    rw [frame_parse_complete]
    rw [DataType.fromByte_toByte]
    simp

/-- C1 witness: the round trip holds at the concrete `ConnectRequest` frame
with payload `[0xca, 0x01]`. -/
theorem frame_roundtrip_witness :
    (Frame.encode ⟨.connectRequest, 2, [0xca, 0x01]⟩ (List.replicate 8 0)).1 =
      .ok 8 ∧
    Frame.parse (Frame.encode ⟨.connectRequest, 2, [0xca, 0x01]⟩
        (List.replicate 8 0)).2 =
      .ok ([], ⟨.connectRequest, 2, [0xca, 0x01]⟩) :=
  frame_roundtrip .connectRequest [0xca, 0x01] (by decide)

/-- C5 counterexample: on the structurally complete frame bytes
`[0xfc, 0x5a, 0x01, 0x30, 0x02, 0xca, 0x01, 0x00]` the trailing byte 0x00
differs from the computed checksum 0xa8, and `Frame::parse` returns a bare
positioned nom `Verify` error — a value that (per `NomErr`) carries only the
remaining input and an error kind, so neither the received/calculated
checksum pair nor the frame's type and payload is surfaced to the caller. -/
theorem frame_parse_checksum_cex :
    Frame.parse [0xfc, 0x5a, 0x01, 0x30, 0x02, 0xca, 0x01, 0x00] =
      .error (.error [0x00] .verifyKind) ∧
    checksum .connectRequest 2 [0xca, 0x01] = 0xa8 ∧
    (∀ rem f, Frame.parse [0xfc, 0x5a, 0x01, 0x30, 0x02, 0xca, 0x01, 0x00] ≠
      .ok (rem, f)) := by
  refine ⟨by decide, by decide, ?_⟩
  intro rem f hcontra
  rw [show Frame.parse [0xfc, 0x5a, 0x01, 0x30, 0x02, 0xca, 0x01, 0x00] =
    .error (.error [0x00] .verifyKind) from by decide] at hcontra
  simp at hcontra

/-- C5 (amended): when `Frame::parse` is given a structurally complete frame
whose trailing checksum byte does not equal the computed checksum, it fails
with a nom `Verify` error positioned at the checksum byte; the error carries
neither the received/calculated checksum values nor the frame (the unused
`FrameParsingError::InvalidChecksum` also carries no values), so the frame is
rejected rather than surfaced. -/
theorem frame_parse_checksum_mismatch (dtb ck : Nat) (payload rest : List Nat)
    (hck : ck ≠ checksum (DataType.fromByte dtb) payload.length payload) :
    Frame.parse (0xfc :: dtb :: 0x01 :: 0x30 :: payload.length ::
        (payload ++ ck :: rest)) =
      .error (.error (ck :: rest) .verifyKind) := by
  rw [frame_parse_complete, if_neg hck]

/-- C5 witness: the amended statement at the concrete corrupted
`ConnectRequest` frame. -/
theorem frame_parse_checksum_mismatch_witness :
    Frame.parse [0xfc, 0x5a, 0x01, 0x30, 0x02, 0xca, 0x01, 0x00] =
      .error (.error [0x00] .verifyKind) :=
  frame_parse_checksum_mismatch 0x5a 0x00 [0xca, 0x01] [] (by decide)

theorem frame_parse_ok_length {input rem : List Nat} {f : Frame}
    (h : Frame.parse input = .ok (rem, f)) : 6 ≤ input.length := by
  unfold Frame.parse at h
  split at h
  · simp at h
  · rename_i heq1
    split at h
    · simp at h
    · rename_i heq2
      split at h
      · simp at h
      · rename_i heq3
        split at h
        · simp at h
        · rename_i heq4
          split at h
          · simp at h
          · rename_i heq5
            split at h
            · simp at h
            · rename_i heq6
              split at h
              · obtain ⟨h1, hd1⟩ := ntag_ok heq1
                have e2 := beU8_ok heq2
                obtain ⟨h3, hd3⟩ := ntag_ok heq3
                have e4 := beU8_ok heq4
                obtain ⟨h5, hd5⟩ := ntake_ok heq5
                have e6 := beU8_ok heq6
                simp only [List.length_cons, List.length_singleton] at h1 h3 hd1 hd3
                have l1 : (input.drop 1).length = input.length - 1 := by simp
                have l3 := congrArg List.length hd3
                have l5 := congrArg List.length hd5
                have c2 := congrArg List.length e2
                have c4 := congrArg List.length e4
                have c6 := congrArg List.length e6
                rw [hd1] at c2
                simp only [List.length_drop, List.length_cons] at l3 l5 c2 c4 c6
                omega
              · simp at h

/-- C6 counterexample: the one-byte input `[0x00]` is shorter than 6 bytes,
yet `Frame::parse` returns a positioned tag (malformed start marker) error,
not an `Incomplete` error. -/
theorem frame_parse_short_cex :
    Frame.parse [0x00] = .error (.error [0x00] .tagKind) ∧
    (∀ hint, Frame.parse [0x00] ≠ .error (.incomplete hint)) := by
  refine ⟨by decide, ?_⟩
  intro hint hcontra
  rw [show Frame.parse [0x00] = .error (.error [0x00] .tagKind) from by decide]
    at hcontra
  simp at hcontra

/-- A short input whose bytes mismatch the constants tag within the overlap
(`[0xfc, 0x41, 0x02]`: byte 2 should be 0x01) gets a positioned `Tag` error,
per nom 5's streaming `compare` — not an `Incomplete`. -/
theorem frame_parse_short_mismatch_vector :
    Frame.parse [0xfc, 0x41, 0x02] = .error (.error [0x02] .tagKind) := by
  decide

/-- C6 (amended): for every input buffer shorter than 6 bytes, `Frame::parse`
never returns a successfully parsed frame: it returns an `Incomplete` error
(with a needed-bytes hint) exactly when the bytes so far are a prefix of a
well-formed envelope (every marker byte present matches:
`envelopeMarkersOk`), and a positioned `Tag` (malformed-marker) error
otherwise; the total list model never panics or reads out of bounds. -/
theorem frame_parse_short (input : List Nat) (h : input.length < 6) :
    (envelopeMarkersOk input →
      ∃ hint, Frame.parse input = .error (.incomplete hint)) ∧
    (¬ envelopeMarkersOk input →
      ∃ pos, Frame.parse input = .error (.error pos .tagKind)) := by
  rcases input with _ | ⟨b0, _ | ⟨b1, _ | ⟨b2, _ | ⟨b3, _ | ⟨b4, _ | ⟨b5, tail⟩⟩⟩⟩⟩⟩
  · constructor
    · intro _
      exact ⟨.size 1, by decide⟩
    · intro hm
      exact absurd (by decide) hm
  · constructor
    · intro hm
      have hb0 : b0 = 0xfc := by simpa using hm.1 (by simp)
      subst hb0
      exact ⟨.size 1, by decide⟩
    · intro hm
      have hb0 : b0 ≠ 0xfc := by
        intro hc
        exact hm (by subst hc; decide)
      exact ⟨[b0], by simp [Frame.parse, ntag, hb0]⟩
  · constructor
    · intro hm
      have hb0 : b0 = 0xfc := by simpa using hm.1 (by simp)
      subst hb0
      exact ⟨.size 2, by simp [Frame.parse, ntag, beU8]⟩
    · intro hm
      have hb0 : b0 ≠ 0xfc := by
        intro hc
        exact hm (by subst hc; simp [envelopeMarkersOk])
      exact ⟨[b0, b1], by simp [Frame.parse, ntag, hb0]⟩
  · constructor
    · intro hm
      have hb0 : b0 = 0xfc := by simpa using hm.1 (by simp)
      have hb2 : b2 = 0x01 := by simpa using hm.2.1 (by simp)
      subst hb0
      subst hb2
      exact ⟨.size 2, by simp [Frame.parse, ntag, beU8]⟩
    · intro hm
      by_cases hb0 : b0 = 0xfc
      · subst hb0
        have hb2 : b2 ≠ 0x01 := by
          intro hc
          exact hm (by subst hc; simp [envelopeMarkersOk])
        exact ⟨[b2], by simp [Frame.parse, ntag, beU8, hb2]⟩
      · exact ⟨[b0, b1, b2], by simp [Frame.parse, ntag, hb0]⟩
  · constructor
    · intro hm
      have hb0 : b0 = 0xfc := by simpa using hm.1 (by simp)
      have hb2 : b2 = 0x01 := by simpa using hm.2.1 (by simp)
      have hb3 : b3 = 0x30 := by simpa using hm.2.2 (by simp)
      subst hb0
      subst hb2
      subst hb3
      exact ⟨.size 1, by simp [Frame.parse, ntag, beU8]⟩
    · intro hm
      by_cases hb0 : b0 = 0xfc
      · by_cases hb2 : b2 = 0x01
        · subst hb0
          subst hb2
          have hb3 : b3 ≠ 0x30 := by
            intro hc
            exact hm (by subst hc; simp [envelopeMarkersOk])
          exact ⟨[0x01, b3], by simp [Frame.parse, ntag, beU8, hb3]⟩
        · subst hb0
          exact ⟨[b2, b3], by simp [Frame.parse, ntag, beU8, hb2]⟩
      · exact ⟨[b0, b1, b2, b3], by simp [Frame.parse, ntag, hb0]⟩
  · constructor
    · intro hm
      have hb0 : b0 = 0xfc := by simpa using hm.1 (by simp)
      have hb2 : b2 = 0x01 := by simpa using hm.2.1 (by simp)
      have hb3 : b3 = 0x30 := by simpa using hm.2.2 (by simp)
      subst hb0
      subst hb2
      subst hb3
      rcases b4 with _ | n
      · exact ⟨.size 1, by simp [Frame.parse, ntag, ntake, beU8]⟩
      · exact ⟨.size (n + 1), by simp [Frame.parse, ntag, ntake, beU8]⟩
    · intro hm
      by_cases hb0 : b0 = 0xfc
      · by_cases hb2 : b2 = 0x01
        · subst hb0
          subst hb2
          have hb3 : b3 ≠ 0x30 := by
            intro hc
            exact hm (by subst hc; simp [envelopeMarkersOk])
          exact ⟨[0x01, b3, b4], by simp [Frame.parse, ntag, beU8, hb3]⟩
        · subst hb0
          exact ⟨[b2, b3, b4], by simp [Frame.parse, ntag, beU8, hb2]⟩
      · exact ⟨[b0, b1, b2, b3, b4], by simp [Frame.parse, ntag, hb0]⟩
  · exfalso
    simp only [List.length_cons] at h
    omega

/-- C6 witness: the amended statement at the concrete inputs `[0xfc]`
(a well-formed-envelope prefix, hence Incomplete) and `[0x00]`
(a marker mismatch, hence a positioned Tag error). -/
theorem frame_parse_short_witness :
    (∃ hint, Frame.parse [0xfc] = .error (.incomplete hint)) ∧
    (∃ pos, Frame.parse [0x00] = .error (.error pos .tagKind)) :=
  ⟨(frame_parse_short [0xfc] (by decide)).1 (by decide),
   (frame_parse_short [0x00] (by decide)).2 (by decide)⟩

/-- C3: for every successfully decoded Settings or RoomTemperature payload of
a `GetInfoResponse`, the decoded temperature is the mapped-byte
interpretation (`SetpointMapped` for Settings, `RoomTempMapped` for
RoomTemperature) exactly when the half-degree byte is 0x00, and the
`HalfDegreesCPlusOffset` interpretation of the half-degree byte otherwise,
regardless of the mapped byte's value. -/
theorem get_info_temperature_fallback :
    (∀ b1 b2 pw mi sp fb vb s1 s2 wv hd c1 c2 c3 c4 : Nat, ∀ rest : List Nat,
      GetInfoResponse.decode_settings
          (0x02 :: b1 :: b2 :: pw :: mi :: sp :: fb :: vb :: s1 :: s2 :: wv ::
            hd :: c1 :: c2 :: c3 :: c4 :: rest) =
        .ok (rest, .settings (Power.fromByte pw) (Mode.fromByte (mi % 8))
          (if hd = 0 then .setpointMapped sp else .halfDegreesCPlusOffset hd)
          (Fan.fromByte fb) (Vane.fromByte vb) (WideVane.fromByte wv)
          (ISee.fromByte (mi / 8 % 2)))) ∧
    (∀ b1 b2 m b4 b5 hd r1 r2 r3 r4 r5 r6 r7 r8 r9 : Nat, ∀ rest : List Nat,
      GetInfoResponse.decode_room_temp
          (0x03 :: b1 :: b2 :: m :: b4 :: b5 :: hd :: r1 :: r2 :: r3 :: r4 ::
            r5 :: r6 :: r7 :: r8 :: r9 :: rest) =
        .ok (rest, .roomTemperature
          (if hd = 0 then .roomTempMapped m else .halfDegreesCPlusOffset hd))) := by
  constructor
  · intro b1 b2 pw mi sp fb vb s1 s2 wv hd c1 c2 c3 c4 rest
    simp only [GetInfoResponse.decode_settings, InfoType.settings_toByte,
      ntag1_cons, ntake2_cons, mapOptPower_cons, parseModeIsee_cons,
      mapByte_cons, mapOptFan_cons, mapOptVane_cons, mapOptWideVane_cons,
      ntake4_cons]
    rcases hd with _ | hd <;> simp
  · intro b1 b2 m b4 b5 hd r1 r2 r3 r4 r5 r6 r7 r8 r9 rest
    simp only [GetInfoResponse.decode_room_temp, InfoType.roomTemp_toByte,
      ntag1_cons, ntake2_cons, mapByte_cons, ntake9_cons]
    rcases hd with _ | hd <;> simp

/-- C4: for each of the eight protocol enumerations, decoding a byte outside
the enumeration's table yields exactly that enumeration's `Unknown` variant
(never a failure), including when such a byte appears as the power field of a
`SetRequest` payload or of a `GetInfoResponse` Settings payload; decode is a
pure function of the byte, so repeated decoding of the same byte is stable. -/
theorem enum_unknown_fallback (b : Nat) :
    (b ∉ ([0, 1] : List Nat) → Power.fromByte b = .unknown) ∧
    (b ∉ ([1, 2, 3, 7, 8] : List Nat) → Mode.fromByte b = .unknown) ∧
    (b ∉ ([0, 1, 2, 3, 5, 6] : List Nat) → Fan.fromByte b = .unknown) ∧
    (b ∉ ([0, 1, 2, 3, 4, 5, 7] : List Nat) → Vane.fromByte b = .unknown) ∧
    (b ∉ ([1, 2, 3, 4, 5, 8, 0xc] : List Nat) → WideVane.fromByte b = .unknown) ∧
    (b ∉ ([0, 1] : List Nat) → ISee.fromByte b = .unknown) ∧
    (b ∉ ([2, 3, 4, 5, 6, 9] : List Nat) → InfoType.fromByte b = .unknown) ∧
    (b ∉ ([0x41, 0x42, 0x5a, 0x61, 0x62, 0x7a] : List Nat) →
      DataType.fromByte b = .unknown) ∧
    (b ∉ ([0, 1] : List Nat) →
      SetRequest.parse [0x01, 0x01, 0x00, b, 0, 0, 0, 0, 0, 0] =
        .ok ([], ⟨some .unknown, none, none, none, none, none⟩)) ∧
    (b ∉ ([0, 1] : List Nat) →
      GetInfoResponse.decode_settings
          [0x02, 0, 0, b, 0, 0, 0, 0, 0, 0, 0, 1, 0, 0, 0, 0] =
        .ok ([], .settings .unknown .unknown (.halfDegreesCPlusOffset 1)
          .auto .auto .unknown .off)) := by
  refine ⟨?_, ?_, ?_, ?_, ?_, ?_, ?_, ?_, ?_, ?_⟩ <;> intro h <;> simp at h
  · simp [Power.fromByte, h.1, h.2]
  · simp [Mode.fromByte, h.1, h.2.1, h.2.2.1, h.2.2.2.1, h.2.2.2.2]
  · simp [Fan.fromByte, h.1, h.2.1, h.2.2.1, h.2.2.2.1, h.2.2.2.2.1, h.2.2.2.2.2]
  · simp [Vane.fromByte, h.1, h.2.1, h.2.2.1, h.2.2.2.1, h.2.2.2.2.1,
      h.2.2.2.2.2.1, h.2.2.2.2.2.2]
  · simp [WideVane.fromByte, h.1, h.2.1, h.2.2.1, h.2.2.2.1, h.2.2.2.2.1,
      h.2.2.2.2.2.1, h.2.2.2.2.2.2]
  · simp [ISee.fromByte, h.1, h.2]
  · simp [InfoType.fromByte, h.1, h.2.1, h.2.2.1, h.2.2.2.1, h.2.2.2.2.1,
      h.2.2.2.2.2]
  · simp [DataType.fromByte, h.1, h.2.1, h.2.2.1, h.2.2.2.1, h.2.2.2.2.1,
      h.2.2.2.2.2]
  · have hpow : Power.fromByte b = .unknown := by simp [Power.fromByte, h.1, h.2]
    simp [SetRequest.parse, ntag1_cons, parseSetFlags, condParse,
      mapOptPower_cons, ntake5_cons, ntake1_cons, hpow]
  · have hpow : Power.fromByte b = .unknown := by simp [Power.fromByte, h.1, h.2]
    simp [GetInfoResponse.decode_settings, InfoType.settings_toByte,
      ntag1_cons, ntake2_cons, mapOptPower_cons, parseModeIsee_cons,
      mapByte_cons, mapOptFan_cons, mapOptVane_cons, mapOptWideVane_cons,
      ntake4_cons, hpow, Mode.fromByte, Fan.fromByte, Vane.fromByte,
      WideVane.fromByte, ISee.fromByte]

/-- C4 witness: the fallbacks hold at the concrete out-of-table byte 0xfe. -/
theorem enum_unknown_fallback_witness :
    Power.fromByte 0xfe = .unknown ∧
    Mode.fromByte 0xfe = .unknown ∧
    Fan.fromByte 0xfe = .unknown ∧
    Vane.fromByte 0xfe = .unknown ∧
    WideVane.fromByte 0xfe = .unknown ∧
    ISee.fromByte 0xfe = .unknown ∧
    InfoType.fromByte 0xfe = .unknown ∧
    DataType.fromByte 0xfe = .unknown ∧
    SetRequest.parse [0x01, 0x01, 0x00, 0xfe, 0, 0, 0, 0, 0, 0] =
      .ok ([], ⟨some .unknown, none, none, none, none, none⟩) ∧
    GetInfoResponse.decode_settings
        [0x02, 0, 0, 0xfe, 0, 0, 0, 0, 0, 0, 0, 1, 0, 0, 0, 0] =
      .ok ([], .settings .unknown .unknown (.halfDegreesCPlusOffset 1)
        .auto .auto .unknown .off) :=
  ⟨(enum_unknown_fallback 0xfe).1 (by decide),
   (enum_unknown_fallback 0xfe).2.1 (by decide),
   (enum_unknown_fallback 0xfe).2.2.1 (by decide),
   (enum_unknown_fallback 0xfe).2.2.2.1 (by decide),
   (enum_unknown_fallback 0xfe).2.2.2.2.1 (by decide),
   (enum_unknown_fallback 0xfe).2.2.2.2.2.1 (by decide),
   (enum_unknown_fallback 0xfe).2.2.2.2.2.2.1 (by decide),
   (enum_unknown_fallback 0xfe).2.2.2.2.2.2.2.1 (by decide),
   (enum_unknown_fallback 0xfe).2.2.2.2.2.2.2.2.1 (by decide),
   (enum_unknown_fallback 0xfe).2.2.2.2.2.2.2.2.2 (by decide)⟩

/-- C7 counterexample: encoding the all-absent `SetRequest` into a 16-byte
buffer prefilled with 0xaa succeeds, but the absent power field's byte at
offset 3 keeps the destination's previous content 0xaa rather than being
written 0x00 (`Option::encode` writes nothing for `None`). -/
theorem set_request_encode_absent_cex :
    (SetRequest.encode ⟨none, none, none, none, none, none⟩
        (List.replicate 16 0xaa)).1 = .ok 16 ∧
    (SetRequest.encode ⟨none, none, none, none, none, none⟩
        (List.replicate 16 0xaa)).2.getD 3 0 = 0xaa ∧
    (0xaa : Nat) ≠ 0x00 := by decide

theorem testBit_flagByte (a b c d e : Bool) :
    Nat.testBit ((if a then 1 else 0) + (if b then 2 else 0) +
      (if c then 4 else 0) + (if d then 8 else 0) + (if e then 16 else 0)) 0 = a ∧
    Nat.testBit ((if a then 1 else 0) + (if b then 2 else 0) +
      (if c then 4 else 0) + (if d then 8 else 0) + (if e then 16 else 0)) 1 = b ∧
    Nat.testBit ((if a then 1 else 0) + (if b then 2 else 0) +
      (if c then 4 else 0) + (if d then 8 else 0) + (if e then 16 else 0)) 2 = c ∧
    Nat.testBit ((if a then 1 else 0) + (if b then 2 else 0) +
      (if c then 4 else 0) + (if d then 8 else 0) + (if e then 16 else 0)) 3 = d ∧
    Nat.testBit ((if a then 1 else 0) + (if b then 2 else 0) +
      (if c then 4 else 0) + (if d then 8 else 0) + (if e then 16 else 0)) 4 = e := by
  cases a <;> cases b <;> cases c <;> cases d <;> cases e <;> decide

theorem testBit_bit0 (a : Bool) :
    Nat.testBit (if a then 1 else 0) 0 = a := by
  cases a <;> decide

/-- C7 (amended): encoding any `SetRequest` into any 16-byte buffer succeeds
and produces the 16-byte layout `SetRequestEncodeLayout`: constant byte,
flag bits derived from which fields are present, present fields at their
fixed offsets, zeroed padding and absent-temperature bytes — while each
absent power/mode/fan/vane/widevane byte is left at the destination buffer's
previous content (0x00 whenever the buffer is zero-initialized). -/
theorem set_request_encode_layout (r : SetRequest) (buf : List Nat)
    (h : buf.length = 16) : SetRequestEncodeLayout r buf := by
  have hne : ¬ (buf.length ≠ 16) := by omega
  obtain ⟨p, m, t, f, v, w⟩ := r
  have henc : SetRequest.encode ⟨p, m, t, f, v, w⟩ buf =
      (.ok 16,
        [0x01,
         (if p.isSome then 1 else 0) + (if m.isSome then 2 else 0) +
           (if t.isSome then 4 else 0) + (if f.isSome then 8 else 0) +
           (if v.isSome then 16 else 0),
         (if w.isSome then 1 else 0),
         (match p with
          | some x => x.encoded_as_byte
          | none => buf.getD 3 0),
         (match m with
          | some x => x.encoded_as_byte
          | none => buf.getD 4 0),
         (match t with
          | some x => TenthDegreesC.encode_as_setpoint_mapped x.celsius_tenths
          | none => 0x00),
         (match f with
          | some x => x.encoded_as_byte
          | none => buf.getD 6 0),
         (match v with
          | some x => x.encoded_as_byte
          | none => buf.getD 7 0),
         0, 0, 0, 0, 0,
         (match w with
          | some x => x.encoded_as_byte
          | none => buf.getD 13 0),
         (match t with
          | some x => TenthDegreesC.encode_as_half_deg_plus_offset x.celsius_tenths
          | none => 0x00),
         0]) := by
    simp only [SetRequest.encode]
    rw [if_neg hne]
    rfl
  unfold SetRequestEncodeLayout
  rw [henc]
  refine ⟨rfl, rfl, rfl,
    (testBit_flagByte p.isSome m.isSome t.isSome f.isSome v.isSome).1,
    (testBit_flagByte p.isSome m.isSome t.isSome f.isSome v.isSome).2.1,
    (testBit_flagByte p.isSome m.isSome t.isSome f.isSome v.isSome).2.2.1,
    (testBit_flagByte p.isSome m.isSome t.isSome f.isSome v.isSome).2.2.2.1,
    (testBit_flagByte p.isSome m.isSome t.isSome f.isSome v.isSome).2.2.2.2,
    testBit_bit0 w.isSome,
    ?_, ?_, ?_, ?_, ?_, ?_, ?_, ?_, ?_, ?_,
    ⟨rfl, rfl, rfl, rfl, rfl⟩, ?_, ?_, ?_, ?_, rfl⟩
  · rintro q rfl; rfl
  · rintro rfl; rfl
  · rintro q rfl; rfl
  · rintro rfl; rfl
  · rintro q rfl; rfl
  · rintro rfl; rfl
  · rintro q rfl; rfl
  · rintro rfl; rfl
  · rintro q rfl; rfl
  · rintro rfl; rfl
  · rintro q rfl; rfl
  · rintro rfl; rfl
  · rintro q rfl; rfl
  · rintro rfl; rfl

/-- C7 witness: the amended layout at the repository's own test vector. -/
theorem set_request_encode_layout_witness :
    SetRequestEncodeLayout
      ⟨some .on, some .auto, some (.halfDegreesCPlusOffset 0xaa),
        some .auto, some .swing, some .ll⟩ (List.replicate 16 0) :=
  set_request_encode_layout _ _ (by decide)

theorem decode_settings_not_error (rest e : List Nat) (k : ErrKind) :
    GetInfoResponse.decode_settings (0x02 :: rest) ≠ .error (.error e k) := by
  rcases rest with _ | ⟨b1, _ | ⟨b2, _ | ⟨b3, _ | ⟨b4, _ | ⟨b5, _ | ⟨b6, _ |
    ⟨b7, _ | ⟨b8, _ | ⟨b9, _ | ⟨b10, _ | ⟨b11, _ | ⟨b12, _ | ⟨b13, _ |
    ⟨b14, _ | ⟨b15, tail⟩⟩⟩⟩⟩⟩⟩⟩⟩⟩⟩⟩⟩⟩⟩ <;>
    (simp only [GetInfoResponse.decode_settings, ntag1_cons, ntake2_cons,
      mapOptPower_cons, parseModeIsee_cons, mapByte_cons, mapOptFan_cons,
      mapOptVane_cons, mapOptWideVane_cons, ntake4_cons];
     simp [ntag, ntake, beU8, mapOptByte, mapByte, parseModeIsee,
       Power.from_repr, Mode.from_repr, Fan.from_repr, Vane.from_repr,
       WideVane.from_repr, ISee.from_repr])

theorem decode_room_temp_not_error (rest e : List Nat) (k : ErrKind) :
    GetInfoResponse.decode_room_temp (0x03 :: rest) ≠ .error (.error e k) := by
  rcases rest with _ | ⟨b1, _ | ⟨b2, _ | ⟨b3, _ | ⟨b4, _ | ⟨b5, _ | ⟨b6, _ |
    ⟨b7, _ | ⟨b8, _ | ⟨b9, _ | ⟨b10, _ | ⟨b11, _ | ⟨b12, _ | ⟨b13, _ |
    ⟨b14, _ | ⟨b15, tail⟩⟩⟩⟩⟩⟩⟩⟩⟩⟩⟩⟩⟩⟩⟩ <;>
    (simp only [GetInfoResponse.decode_room_temp, ntag1_cons, ntake2_cons,
      mapByte_cons, ntake9_cons];
     simp [ntag, ntake, beU8, mapByte])

theorem decode_status_not_error (rest e : List Nat) (k : ErrKind) :
    GetInfoResponse.decode_status (0x06 :: rest) ≠ .error (.error e k) := by
  rcases rest with _ | ⟨b1, _ | ⟨b2, _ | ⟨b3, _ | ⟨b4, tail⟩⟩⟩⟩ <;>
    (simp only [GetInfoResponse.decode_status, ntag1_cons, ntake2_cons,
      beU8_cons];
     simp [ntag, ntake, beU8])

theorem decode_settings_tag_mismatch {b : Nat} (hb : b ≠ 0x02) (rest : List Nat) :
    GetInfoResponse.decode_settings (b :: rest) =
      .error (.error (b :: rest) .tagKind) := by
  simp [GetInfoResponse.decode_settings, ntag, hb]

theorem decode_room_temp_tag_mismatch {b : Nat} (hb : b ≠ 0x03) (rest : List Nat) :
    GetInfoResponse.decode_room_temp (b :: rest) =
      .error (.error (b :: rest) .tagKind) := by
  simp [GetInfoResponse.decode_room_temp, ntag, hb]

theorem decode_timer_tag_mismatch {b : Nat} (hb : b ≠ 0x05) (rest : List Nat) :
    GetInfoResponse.decode_timer (b :: rest) =
      .error (.error (b :: rest) .tagKind) := by
  simp [GetInfoResponse.decode_timer, ntag, hb]

theorem decode_status_tag_mismatch {b : Nat} (hb : b ≠ 0x06) (rest : List Nat) :
    GetInfoResponse.decode_status (b :: rest) =
      .error (.error (b :: rest) .tagKind) := by
  simp [GetInfoResponse.decode_status, ntag, hb]

/-- C8: the `GetInfoResponse` variant is selected deterministically by the
leading `InfoType` tag byte alone, in the priority order Settings (0x02),
RoomTemperature (0x03), Timers (0x05, consuming only the tag byte and
yielding Unknown), Status (0x06), falling through to Unknown otherwise;
there is no backtracking — a payload whose tag byte selects one decoder is
decided entirely by that decoder, never by a later alternative. -/
theorem get_info_response_dispatch (b : Nat) (rest : List Nat) :
    (b = 0x02 → GetInfoResponse.parse (b :: rest) =
      GetInfoResponse.decode_settings (b :: rest)) ∧
    (b = 0x03 → GetInfoResponse.parse (b :: rest) =
      GetInfoResponse.decode_room_temp (b :: rest)) ∧
    (b = 0x05 → GetInfoResponse.parse (b :: rest) = .ok (rest, .unknown)) ∧
    (b = 0x06 → GetInfoResponse.parse (b :: rest) =
      GetInfoResponse.decode_status (b :: rest)) ∧
    (b ≠ 0x02 → b ≠ 0x03 → b ≠ 0x05 → b ≠ 0x06 →
      GetInfoResponse.parse (b :: rest) = .ok (b :: rest, .unknown)) := by
  refine ⟨?_, ?_, ?_, ?_, ?_⟩
  · rintro rfl
    unfold GetInfoResponse.parse
    cases hs : GetInfoResponse.decode_settings (0x02 :: rest) with
    | ok p => rfl
    | error err =>
      cases err with
      | incomplete n => rfl
      | error pos k => exact absurd hs (decode_settings_not_error rest pos k)
  · rintro rfl
    unfold GetInfoResponse.parse
    rw [decode_settings_tag_mismatch (by decide) rest]
    cases hr : GetInfoResponse.decode_room_temp (0x03 :: rest) with
    | ok p => rfl
    | error err =>
      cases err with
      | incomplete n => rfl
      | error pos k => exact absurd hr (decode_room_temp_not_error rest pos k)
  · rintro rfl
    unfold GetInfoResponse.parse
    rw [decode_settings_tag_mismatch (by decide) rest,
      decode_room_temp_tag_mismatch (by decide) rest]
    simp [GetInfoResponse.decode_timer, ntag]
  · rintro rfl
    unfold GetInfoResponse.parse
    rw [decode_settings_tag_mismatch (by decide) rest,
      decode_room_temp_tag_mismatch (by decide) rest,
      decode_timer_tag_mismatch (by decide) rest]
    cases hq : GetInfoResponse.decode_status (0x06 :: rest) with
    | ok p => rfl
    | error err =>
      cases err with
      | incomplete n => rfl
      | error pos k => exact absurd hq (decode_status_not_error rest pos k)
  · intro h2 h3 h5 h6
    unfold GetInfoResponse.parse
    rw [decode_settings_tag_mismatch h2 rest, decode_room_temp_tag_mismatch h3 rest,
      decode_timer_tag_mismatch h5 rest, decode_status_tag_mismatch h6 rest]
    rfl

/-- C8 witness: the dispatch at the concrete tags 0x05 (Timers) and 0x00
(unmatched, falls through to Unknown without consuming input). -/
theorem get_info_response_dispatch_witness :
    GetInfoResponse.parse (0x05 :: [0, 0, 0]) = .ok ([0, 0, 0], .unknown) ∧
    GetInfoResponse.parse (0x00 :: [0, 0, 0]) =
      .ok (0x00 :: [0, 0, 0], .unknown) :=
  ⟨(get_info_response_dispatch 0x05 [0, 0, 0]).2.2.1 rfl,
   (get_info_response_dispatch 0x00 [0, 0, 0]).2.2.2.2
     (by decide) (by decide) (by decide) (by decide)⟩

/-- C2: for every frame type, payload length and payload, `checksum` returns
0xFC minus the low 8 bits of the u32 sum of 0xFC, the frame-type byte, 0x01,
0x30, the length byte and every payload byte, with the final subtraction
wrapping modulo 256 — and the result is always a byte (it never faults). -/
theorem checksum_closed_form (data_type : DataType) (data_len : Nat) (data : List Nat) :
    checksum data_type data_len data =
      (0xfc + (256 -
        (0xfc + data_type.toByte + 0x01 + 0x30 + data_len + data.sum) % 256)) % 256 ∧
    checksum data_type data_len data < 256 := by
  constructor
  · simp only [checksum]
    rw [foldl_wrap32_mod]
    omega
  · simp only [checksum]
    omega

/-- C9 counterexample: `celsius_tenths` does wrapping u8 arithmetic, so the
claimed plain linear formulas fail: `RoomTempMapped(100)` decodes to 76
tenths, not `(100 + 10) * 10 = 1100`. -/
theorem celsius_tenths_linear_cex :
    (Temperature.roomTempMapped 100).celsius_tenths = 76 ∧
    (100 + 10) * 10 = 1100 ∧
    (Temperature.roomTempMapped 100).celsius_tenths ≠ (100 + 10) * 10 := by
  decide

/-- C9 (amended): for every byte value, `Temperature::celsius_tenths`
computes the linear formulas modulo 256 (u8 wraparound): the result equals
`(value − 128) × 5 mod 256` for `HalfDegreesCPlusOffset`,
`(31 − value) × 10 mod 256` for `SetpointMapped`, and
`(value + 10) × 10 mod 256` for `RoomTempMapped`. -/
theorem celsius_tenths_mod (v : Nat) (_hv : v < 256) :
    ((Temperature.halfDegreesCPlusOffset v).celsius_tenths : ℤ) =
        ((v : ℤ) - 128) * 5 % 256 ∧
    ((Temperature.setpointMapped v).celsius_tenths : ℤ) =
        (31 - (v : ℤ)) * 10 % 256 ∧
    ((Temperature.roomTempMapped v).celsius_tenths : ℤ) =
        ((v : ℤ) + 10) * 10 % 256 := by
  refine ⟨?_, ?_, ?_⟩ <;>
  · simp only [Temperature.celsius_tenths]
    push_cast
    omega

/-- C9 witness: the amended statement holds at the concrete byte 0. -/
theorem celsius_tenths_mod_witness :
    ((Temperature.halfDegreesCPlusOffset 0).celsius_tenths : ℤ) =
        ((0 : ℤ) - 128) * 5 % 256 ∧
    ((Temperature.setpointMapped 0).celsius_tenths : ℤ) =
        (31 - (0 : ℤ)) * 10 % 256 ∧
    ((Temperature.roomTempMapped 0).celsius_tenths : ℤ) =
        ((0 : ℤ) + 10) * 10 % 256 :=
  celsius_tenths_mod 0 (by decide)

/-- C10: `FrameData::encode` rejects every response variant with
`NotImplemented` and the `Unknown` variant with `UnknownDataType`, leaving
every byte of the destination buffer unmodified. -/
theorem frame_data_encode_rejects (buf : List Nat)
    (sr : SetResponse) (gr : GetInfoResponse) (cr : ConnectResponse) :
    FrameData.encode (.setResponse sr) buf = (.error .notImplemented, buf) ∧
    FrameData.encode (.getInfoResponse gr) buf = (.error .notImplemented, buf) ∧
    FrameData.encode (.connectResponse cr) buf = (.error .notImplemented, buf) ∧
    FrameData.encode .unknown buf = (.error .unknownDataType, buf) :=
  ⟨rfl, rfl, rfl, rfl⟩
